import Mathlib

/-!
Shallow embedding of `flower.py` (GitHub Termux Commander), covering the
configuration/session bootstrap and the GitHub API request facade:
`_encrypt_data`, `_load_config`, `_create_config`, `_github_api`,
`_setup_environment`, and the `__main__` guard.

Machine words are `Nat` taken modulo `2^32` where overflow matters.
Python byte strings are `List Nat` (each entry < 256).
-/

namespace Flower

/-- 2^32, the modulus for 32-bit words in SHA-256. -/
def M32 : Nat := 4294967296

/-- Right rotation of a 32-bit word (`x` assumed < 2^32). -/
def rotr (n x : Nat) : Nat := ((x >>> n) ||| (x <<< (32 - n))) % M32

/-- Logical right shift. -/
def shr (n x : Nat) : Nat := x >>> n

/-- Bitwise complement within 32 bits. -/
def not32 (x : Nat) : Nat := x ^^^ 4294967295

/-- SHA-256 choice function. -/
def ch (x y z : Nat) : Nat := (x &&& y) ^^^ (not32 x &&& z)

/-- SHA-256 majority function. -/
def maj (x y z : Nat) : Nat := (x &&& y) ^^^ (x &&& z) ^^^ (y &&& z)

/-- SHA-256 Σ0. -/
def bigSigma0 (x : Nat) : Nat := rotr 2 x ^^^ rotr 13 x ^^^ rotr 22 x

/-- SHA-256 Σ1. -/
def bigSigma1 (x : Nat) : Nat := rotr 6 x ^^^ rotr 11 x ^^^ rotr 25 x

/-- SHA-256 σ0. -/
def smallSigma0 (x : Nat) : Nat := rotr 7 x ^^^ rotr 18 x ^^^ shr 3 x

/-- SHA-256 σ1. -/
def smallSigma1 (x : Nat) : Nat := rotr 17 x ^^^ rotr 19 x ^^^ shr 10 x

/-- The 64 SHA-256 round constants (decimal). -/
def K256 : List Nat :=
  [1116352408, 1899447441, 3049323471, 3921009573, 961987163,
   1508970993, 2453635748, 2870763221, 3624381080, 310598401,
   607225278, 1426881987, 1925078388, 2162078206, 2614888103,
   3248222580, 3835390401, 4022224774, 264347078, 604807628,
   770255983, 1249150122, 1555081692, 1996064986, 2554220882,
   2821834349, 2952996808, 3210313671, 3336571891, 3584528711,
   113926993, 338241895, 666307205, 773529912, 1294757372,
   1396182291, 1695183700, 1986661051, 2177026350, 2456956037,
   2730485921, 2820302411, 3259730800, 3345764771, 3516065817,
   3600352804, 4094571909, 275423344, 430227734, 506948616,
   659060556, 883997877, 958139571, 1322822218, 1537002063,
   1747873779, 1955562222, 2024104815, 2227730452, 2361852424,
   2428436474, 2756734187, 3204031479, 3329325298]

/-- SHA-256 working state: eight 32-bit words. -/
structure Hash8 where
  a : Nat
  b : Nat
  c : Nat
  d : Nat
  e : Nat
  f : Nat
  g : Nat
  h : Nat
deriving Repr, DecidableEq

/-- The SHA-256 initial hash value (decimal). -/
def initH : Hash8 :=
  ⟨1779033703, 3144134277, 1013904242, 2773480762,
   1359893119, 2600822924, 528734635, 1541459225⟩

/-- Extend a 16-word message block by `n` further schedule words
(`W t = σ1 (W (t-2)) + W (t-7) + σ0 (W (t-15)) + W (t-16)` mod 2^32). -/
def extendW (w : List Nat) : Nat → List Nat
  | 0 => w
  | n + 1 =>
    let v := extendW w n
    v ++ [(smallSigma1 (v.getD (v.length - 2) 0) + v.getD (v.length - 7) 0 +
           smallSigma0 (v.getD (v.length - 15) 0) + v.getD (v.length - 16) 0) % M32]

/-- One SHA-256 compression round with round constant `kt` and schedule word `wt`. -/
def compressStep (s : Hash8) (kw : Nat × Nat) : Hash8 :=
  let t1 := (s.h + bigSigma1 s.e + ch s.e s.f s.g + kw.1 + kw.2) % M32
  let t2 := (bigSigma0 s.a + maj s.a s.b s.c) % M32
  ⟨(t1 + t2) % M32, s.a, s.b, s.c, (s.d + t1) % M32, s.e, s.f, s.g⟩

/-- Compress one 16-word block into the running hash. -/
def compressBlock (s : Hash8) (block : List Nat) : Hash8 :=
  let w := extendW block 48
  let t := (K256.zip w).foldl compressStep s
  ⟨(s.a + t.a) % M32, (s.b + t.b) % M32, (s.c + t.c) % M32, (s.d + t.d) % M32,
   (s.e + t.e) % M32, (s.f + t.f) % M32, (s.g + t.g) % M32, (s.h + t.h) % M32⟩

/-- Big-endian byte decomposition of `n` into `k` bytes. -/
def toBytesBE : Nat → Nat → List Nat
  | 0, _ => []
  | k + 1, n => toBytesBE k (n / 256) ++ [n % 256]

/-- SHA-256 message padding: append `0x80`, zero bytes up to 56 mod 64,
then the bit length as 8 big-endian bytes. -/
def shaPad (msg : List Nat) : List Nat :=
  msg ++ [0x80] ++ List.replicate ((119 - msg.length % 64) % 64) 0 ++ toBytesBE 8 (8 * msg.length)

/-- Group bytes into big-endian 32-bit words (four bytes each). -/
def bytesToWords : List Nat → List Nat
  | b1 :: b2 :: b3 :: b4 :: rest =>
    (((b1 * 256 + b2) * 256 + b3) * 256 + b4) :: bytesToWords rest
  | _ => []

/-- Split a word list into 16-word blocks (the padded message is always an
exact multiple of 16 words). -/
def chunks16 : List Nat → List (List Nat)
  | w1 :: w2 :: w3 :: w4 :: w5 :: w6 :: w7 :: w8 ::
    w9 :: w10 :: w11 :: w12 :: w13 :: w14 :: w15 :: w16 :: rest =>
    [w1, w2, w3, w4, w5, w6, w7, w8, w9, w10, w11, w12, w13, w14, w15, w16] :: chunks16 rest
  | _ => []

/-- SHA-256 of a byte string, as the 32-byte digest. -/
def sha256 (msg : List Nat) : List Nat :=
  let fin := (chunks16 (bytesToWords (shaPad msg))).foldl compressBlock initH
  toBytesBE 4 fin.a ++ toBytesBE 4 fin.b ++ toBytesBE 4 fin.c ++ toBytesBE 4 fin.d ++
  toBytesBE 4 fin.e ++ toBytesBE 4 fin.f ++ toBytesBE 4 fin.g ++ toBytesBE 4 fin.h

/-- UTF-8 encoding of one character (Python `str.encode()`). -/
def utf8EncodeChar (c : Char) : List Nat :=
  let n := c.toNat
  if n < 0x80 then [n]
  else if n < 0x800 then [0xC0 + n / 64, 0x80 + n % 64]
  else if n < 0x10000 then [0xE0 + n / 4096, 0x80 + n / 64 % 64, 0x80 + n % 64]
  else [0xF0 + n / 262144, 0x80 + n / 4096 % 64, 0x80 + n / 64 % 64, 0x80 + n % 64]

/-- UTF-8 bytes of a string, mirroring Python `s.encode()`. -/
def strBytes (s : String) : List Nat := (s.data.map utf8EncodeChar).flatten

/-- The standard base64 alphabet used by Python `base64.b64encode`. -/
def b64Chars : List Char :=
  "ABCDEFGHIJKLMNOPQRSTUVWXYZabcdefghijklmnopqrstuvwxyz0123456789+/".data

/-- Index into the base64 alphabet (callers pass values < 64). -/
def b64alpha (n : Nat) : Char := b64Chars.getD (n % 64) 'A'

/-- Standard base64 encoding of a byte string, including `=` padding,
mirroring `base64.b64encode`. -/
def b64encodeBytes : List Nat → List Char
  | [] => []
  | [b1] => [b64alpha (b1 / 4), b64alpha (b1 % 4 * 16), '=', '=']
  | [b1, b2] => [b64alpha (b1 / 4), b64alpha (b1 % 4 * 16 + b2 / 16), b64alpha (b2 % 16 * 4), '=']
  | b1 :: b2 :: b3 :: rest =>
    b64alpha (b1 / 4) :: b64alpha (b1 % 4 * 16 + b2 / 16) ::
    b64alpha (b2 % 16 * 4 + b3 / 64) :: b64alpha (b3 % 64) :: b64encodeBytes rest

/-- The fixed salt of `_encrypt_data`. -/
def configSalt : String := "github_termux_salt_2024"

/-- `GitHubTermuxCommander._encrypt_data`:
`base64.b64encode(hashlib.sha256((data + salt).encode()).digest()).decode()[:32]`. -/
def encrypt_data (data : String) : String :=
  String.mk ((b64encodeBytes (sha256 (strBytes (data ++ configSalt)))).take 32)

/-! ### JSON values and the configuration file -/

/-- A decoded JSON value, as produced by `json.load` / `response.json()`.
Objects carry the parsed dict as an association list; Python's JSON parser
yields a `dict`, so keys are unique. -/
inductive JVal where
  | str (s : String)
  | num (n : Int)
  | bool (b : Bool)
  | null
  | arr (l : List JVal)
  | obj (fields : List (String × JVal))
deriving Repr

/-- Python `dict.get(key, default)` on a parsed JSON object. -/
def dictGet (fields : List (String × JVal)) (key : String) (default : JVal) : JVal :=
  match fields.lookup key with
  | some v => v
  | none => default

/-- The exceptions relevant to the embedded fragment. `requestException`
stands for any `requests.exceptions.RequestException` (ConnectionError,
HTTPError from `raise_for_status`, and — in requests ≥ 2.27 — the
`JSONDecodeError` raised by `response.json()`). -/
inductive PyErr where
  | requestException
  | unboundLocalError
  | attributeError
  | osError
  | jsonDecodeError
deriving Repr, DecidableEq

/-- Observable state of the profile file when `_load_config` runs:
absent, present but unreadable (open/read raises `OSError`), present but
not valid JSON (`json.load` raises), or present with a decoded JSON value. -/
inductive ProfileFile where
  | absent
  | unreadable
  | malformed
  | jsonValue (v : JVal)
deriving Repr

/-- Outcome of `_load_config`: either the in-memory config fields were set
from the file (`loaded username token`), or control fell through to the
interactive `_create_config` path. -/
inductive LoadResult where
  | loaded (username token : JVal)
  | created
deriving Repr

/-- Body of the `try:` block in `_load_config` once `json.load` has
produced the value `v`: `config_data.get` succeeds on a dict and raises
`AttributeError` on any other JSON value. -/
def load_config_try (v : JVal) : Except PyErr (JVal × JVal) :=
  match v with
  | .obj fields => .ok (dictGet fields "username" (.str ""), dictGet fields "token" (.str ""))
  | _ => .error .attributeError

/-- `GitHubTermuxCommander._load_config`: if the file exists, try to read
and parse it, setting `config.username` / `config.token` from the dict;
the bare `except:` routes every failure (read error, parse error,
`.get` on a non-dict) to `_create_config`; an absent file goes to
`_create_config` directly. -/
def load_config (file : ProfileFile) : LoadResult :=
  match file with
  | .absent => .created
  | .unreadable => .created
  | .malformed => .created
  | .jsonValue v =>
    match load_config_try v with
    | .ok (u, t) => .loaded u t
    | .error _ => .created

/-- Python `str.isspace` characters stripped by `str.strip()` (ASCII range). -/
def pyIsSpace (c : Char) : Bool :=
  c = ' ' || c = '\t' || c = '\n' || c = '\x0b' || c = '\x0c' || c = '\r'

/-- Python `str.strip()` with no argument. -/
def pyStrip (s : String) : String :=
  String.mk (((s.data.dropWhile pyIsSpace).reverse.dropWhile pyIsSpace).reverse)

/-- Result of `_create_config`: the in-memory config fields it assigns and
the JSON object it writes to the profile file. -/
structure CreateResult where
  memUsername : String
  memToken : String
  fileData : List (String × JVal)
deriving Repr

/-- `GitHubTermuxCommander._create_config`: reads the two interactive
inputs, strips them, obfuscates the token with `_encrypt_data`, stores
username and obfuscated token in memory, and writes
`{username, token, setup_date, termux_optimized}` to the config file.
`now` is `datetime.now().isoformat()`. -/
def create_config (usernameInput tokenInput now : String) : CreateResult :=
  let username := pyStrip usernameInput
  let token := pyStrip tokenInput
  let enc := encrypt_data token
  { memUsername := username
    memToken := enc
    fileData := [("username", .str username), ("token", .str enc),
                 ("setup_date", .str now), ("termux_optimized", .bool true)] }

/-! ### The GitHub API facade -/

/-- Body of an HTTP response, as seen by `_github_api`:
empty (`response.content` falsy), bytes that `response.json()` fails to
decode, or bytes decoding to a JSON value. -/
inductive BodyContent where
  | empty
  | malformedJson
  | validJson (v : JVal)
deriving Repr

/-- Outcome of the underlying `requests.get/post/put/delete` call:
a transport failure (raises a `RequestException`) or a response with a
status code and a body. -/
inductive HttpResult where
  | transportError
  | response (status : Nat) (body : BodyContent)
deriving Repr

/-- The empty mapping `{}` returned by `_github_api` on failure. -/
def emptyDict : JVal := .obj []

/-- `requests.Response.raise_for_status`: raises `HTTPError` (a
`RequestException`) exactly for status codes in [400, 600). -/
def raise_for_status (status : Nat) : Except PyErr Unit :=
  if 400 ≤ status ∧ status < 600 then .error .requestException else .ok ()

/-- The verb dispatch chain of `_github_api`: one of the four `requests`
calls binds `response`; any other method string leaves `response` unbound,
so the following `response.raise_for_status()` raises `UnboundLocalError`. -/
def dispatchMethod (method : String) (net : HttpResult) : Option HttpResult :=
  if method = "GET" then some net
  else if method = "POST" then some net
  else if method = "PUT" then some net
  else if method = "DELETE" then some net
  else none

/-- The `try:` block of `_github_api`: dispatch on the verb, call
`raise_for_status`, then return `response.json() if response.content else {}`.
In requests ≥ 2.27 the `JSONDecodeError` from `response.json()` is a
`RequestException`. -/
def github_api_try (method : String) (net : HttpResult) : Except PyErr JVal :=
  match dispatchMethod method net with
  | none => .error .unboundLocalError
  | some .transportError => .error .requestException
  | some (.response status body) =>
    match raise_for_status status with
    | .error e => .error e
    | .ok _ =>
      match body with
      | .empty => .ok emptyDict
      | .malformedJson => .error .requestException
      | .validJson v => .ok v

/-- `GitHubTermuxCommander._github_api`: the `try:` block wrapped in
`except requests.exceptions.RequestException:` which prints a diagnostic
and returns `{}`; any other exception propagates to the caller. -/
def github_api (method : String) (net : HttpResult) : Except PyErr JVal :=
  match github_api_try method net with
  | .ok v => .ok v
  | .error .requestException => .ok emptyDict
  | .error e => .error e

/-- The `GitHubConfig` dataclass. -/
structure GitHubConfig where
  username : String
  token : String
  default_editor : String
  termux_mode : Bool
deriving Repr, DecidableEq

/-- The request headers built by `_github_api` from the stored token. -/
def api_headers (token : String) : List (String × String) :=
  [("Authorization", "token " ++ token),
   ("Accept", "application/vnd.github.v3+json"),
   ("User-Agent", "GitHub-Termux-Commander/1.0.0")]

/-- `_github_api` as a transformer of the commander's state: the body
reads `self.config.token` to build the headers and the endpoint to build
the URL, and contains no assignment to `self.config`, so the config
component of the state is returned unchanged. -/
def github_api_full (cfg : GitHubConfig) (endpoint method : String) (net : HttpResult) :
    GitHubConfig × List (String × String) × String × Except PyErr JVal :=
  (cfg, api_headers cfg.token, "https://api.github.com" ++ endpoint, github_api method net)

/-! ### Environment setup and the top-level guard -/

/-- The directory side effect of `_setup_environment`
(`if not self.config_dir.exists(): self.config_dir.mkdir(exist_ok=True)`),
on the one observable bit: whether `~/.github_commander` exists.
`mkdir(exist_ok=True)` creates the directory and raises nothing whether or
not it already exists. -/
def setup_environment_dir (dirExists : Bool) : Bool :=
  if dirExists then dirExists else true

/-- How `main()` terminates inside the `__main__` guard: a normal return,
a `sys.exit(n)` (`SystemExit` is not an `Exception`, so it escapes both
handlers), an escaping `KeyboardInterrupt`, or any other escaping
`Exception` carrying message `msg`. -/
inductive MainResult where
  | finished
  | systemExit (code : Nat)
  | keyboardInterrupt
  | otherException (msg : String)
deriving Repr, DecidableEq

/-- How the process ends: a clean exit with a status code, falling off the
end of the script, or dying with an uncaught exception and a traceback. -/
inductive ProcessEnd where
  | exitCode (code : Nat)
  | fellOffEnd
  | uncaughtTraceback (exceptionName : String)
deriving Repr, DecidableEq

/-- The `if __name__ == "__main__":` guard of `flower.py`:
`KeyboardInterrupt` is printed and followed by `sys.exit(0)`; any other
`Exception` is printed and then the handler executes `sys.exiN`, an
attribute that does not exist on the `sys` module, so the handler itself
raises `AttributeError` and the process dies with a traceback. -/
def main_guard (r : MainResult) : ProcessEnd :=
  match r with
  | .finished => .fellOffEnd
  | .systemExit code => .exitCode code
  | .keyboardInterrupt => .exitCode 0
  | .otherException _ => .uncaughtTraceback "AttributeError"

/-! ### Supporting lemmas -/

lemma toBytesBE_length (k n : Nat) : (toBytesBE k n).length = k := by
  induction k generalizing n with
  | zero => rfl
  | succ k ih => simp [toBytesBE, ih]

lemma sha256_length (msg : List Nat) : (sha256 msg).length = 32 := by
  simp [sha256, toBytesBE_length]

lemma b64alpha_mem (n : Nat) : b64alpha n ∈ b64Chars := by
  have hlt : n % 64 < b64Chars.length := by
    have h64 : b64Chars.length = 64 := rfl
    rw [h64]
    exact Nat.mod_lt _ (by norm_num)
  rw [b64alpha, List.getD_eq_getElem _ _ hlt]
  exact List.getElem_mem hlt

lemma b64encode_cons3 (b1 b2 b3 : Nat) (rest : List Nat) :
    b64encodeBytes (b1 :: b2 :: b3 :: rest) =
      [b64alpha (b1 / 4), b64alpha (b1 % 4 * 16 + b2 / 16),
       b64alpha (b2 % 16 * 4 + b3 / 64), b64alpha (b3 % 64)] ++ b64encodeBytes rest := rfl

lemma b64encode_length (l : List Nat) :
    (b64encodeBytes l).length = 4 * ((l.length + 2) / 3) := by
  induction l using b64encodeBytes.induct with
  | case1 => rfl
  | case2 b1 => simp [b64encodeBytes]
  | case3 b1 b2 => simp [b64encodeBytes]
  | case4 b1 b2 b3 rest ih =>
    rw [b64encode_cons3]
    simp only [List.length_append, List.length_cons, List.length_nil, ih]
    omega

lemma b64encode_take_mem (l : List Nat) :
    ∀ k, k ≤ l.length → ∀ c ∈ (b64encodeBytes l).take k, c ∈ b64Chars := by
  induction l using b64encodeBytes.induct with
  | case1 =>
    intro k hk c hc
    simp only [Nat.le_zero, List.length_nil] at hk
    subst hk
    simp [b64encodeBytes] at hc
  | case2 b1 =>
    intro k hk c hc
    simp only [List.length_cons, List.length_nil] at hk
    interval_cases k
    · simp at hc
    · simp [b64encodeBytes] at hc
      subst hc
      exact b64alpha_mem _
  | case3 b1 b2 =>
    intro k hk c hc
    simp only [List.length_cons, List.length_nil] at hk
    interval_cases k
    · simp at hc
    · simp [b64encodeBytes] at hc
      subst hc
      exact b64alpha_mem _
    · simp [b64encodeBytes, List.take] at hc
      rcases hc with rfl | rfl <;> exact b64alpha_mem _
  | case4 b1 b2 b3 rest ih =>
    intro k hk c hc
    rw [b64encode_cons3, List.take_append_eq_append_take] at hc
    rcases List.mem_append.mp hc with h4 | hrest
    · have h4m := List.take_subset _ _ h4
      simp only [List.mem_cons, List.not_mem_nil, or_false] at h4m
      rcases h4m with rfl | rfl | rfl | rfl <;> exact b64alpha_mem _
    · refine ih (k - 4) ?_ c ?_
      · simp only [List.length_cons] at hk
        omega
      · simpa using hrest

lemma encrypt_data_length (data : String) : (encrypt_data data).length = 32 := by
  have h := b64encode_length (sha256 (strBytes (data ++ configSalt)))
  rw [sha256_length] at h
  show ((b64encodeBytes (sha256 (strBytes (data ++ configSalt)))).take 32).length = 32
  rw [List.length_take, h]
  omega

lemma encrypt_data_chars (data : String) :
    ∀ c ∈ (encrypt_data data).data, c ∈ b64Chars := by
  intro c hc
  have hc2 : c ∈ (b64encodeBytes (sha256 (strBytes (data ++ configSalt)))).take 32 := hc
  have h32 : (32 : Nat) ≤ (sha256 (strBytes (data ++ configSalt))).length := by
    rw [sha256_length]
  exact b64encode_take_mem _ 32 h32 c hc2

lemma dispatchMethod_valid (method : String) (net : HttpResult)
    (hm : method = "GET" ∨ method = "POST" ∨ method = "PUT" ∨ method = "DELETE") :
    dispatchMethod method net = some net := by
  rcases hm with rfl | rfl | rfl | rfl <;> rfl

/-! ### Claim theorems -/

/-- C1: for every method in {GET, POST, PUT, DELETE} and every failure
outcome among transport error, 4xx status, 5xx status, empty response
body, and malformed JSON body, `_github_api` raises nothing (the
`RequestException` handler absorbs every raised exception on these paths)
and returns the empty mapping `{}`. -/
theorem github_api_failure_returns_empty (method : String) (net : HttpResult)
    (hm : method = "GET" ∨ method = "POST" ∨ method = "PUT" ∨ method = "DELETE")
    (hfail : net = .transportError ∨
             (∃ s b, net = .response s b ∧ 400 ≤ s ∧ s < 600) ∨
             (∃ s, net = .response s .empty) ∨
             (∃ s, net = .response s .malformedJson)) :
    github_api method net = .ok emptyDict := by
  have hd := dispatchMethod_valid method net hm
  rcases hfail with rfl | ⟨s, b, rfl, hs⟩ | ⟨s, rfl⟩ | ⟨s, rfl⟩
  · simp [github_api, github_api_try, hd]
  · simp [github_api, github_api_try, hd, raise_for_status, hs.1, hs.2]
  · by_cases hc : 400 ≤ s ∧ s < 600 <;>
      simp [github_api, github_api_try, hd, raise_for_status, hc]
  · by_cases hc : 400 ≤ s ∧ s < 600 <;>
      simp [github_api, github_api_try, hd, raise_for_status, hc]

/-- Witness for C1: a `GET` against an endpoint answering 404 with an
empty body returns `{}` rather than raising (the spec's worked example). -/
theorem github_api_failure_returns_empty_witness :
    github_api "GET" (.response 404 .empty) = .ok emptyDict :=
  github_api_failure_returns_empty "GET" (.response 404 .empty) (Or.inl rfl)
    (Or.inr (Or.inl ⟨404, .empty, rfl, by norm_num, by norm_num⟩))

/-- C2 (code bug): when an unexpected exception escapes `main()`, the
`except Exception` handler of the `__main__` guard executes `sys.exiN` —
a nonexistent attribute — so the handler itself raises `AttributeError`
and the process dies with a traceback instead of the clean exit the spec
requires. -/
theorem main_guard_unexpected_exception_traceback :
    main_guard (.otherException "boom") = .uncaughtTraceback "AttributeError" := rfl

/-- C3: `_encrypt_data` is a deterministic pure function of its input;
its output always has exactly 32 characters, each drawn from the base64
alphabet; and on the raw secret "abc123" with the fixed salt it always
produces the same fixed string. -/
theorem encrypt_data_deterministic_32chars (data : String) :
    (∀ d, d = data → encrypt_data d = encrypt_data data) ∧
    (encrypt_data data).length = 32 ∧
    (∀ c ∈ (encrypt_data data).data, c ∈ b64Chars) ∧
    encrypt_data "abc123" = "BZ7M3esQsVglT7XCmWZUsqZrR7gm3P2H" := by
  refine ⟨fun d hd => hd ▸ rfl, encrypt_data_length data, encrypt_data_chars data, ?_⟩
  decide

/-- Witness for C3 at the concrete input "abc123". -/
theorem encrypt_data_deterministic_32chars_witness :
    encrypt_data "abc123" = encrypt_data "abc123" ∧
    (encrypt_data "abc123").length = 32 ∧
    encrypt_data "abc123" = "BZ7M3esQsVglT7XCmWZUsqZrR7gm3P2H" :=
  ⟨(encrypt_data_deterministic_32chars "abc123").1 "abc123" rfl,
   (encrypt_data_deterministic_32chars "abc123").2.1,
   (encrypt_data_deterministic_32chars "abc123").2.2.2⟩

/-- C4: an absent profile file, a file whose read raises, and a file that
fails to parse all route `_load_config` to the interactive creation path;
no exception escapes (the bare `except:` absorbs every error of the read
path, and the absent case branches to `_create_config` directly). -/
theorem load_config_error_falls_back_to_create (file : ProfileFile)
    (h : file = .absent ∨ file = .unreadable ∨ file = .malformed) :
    load_config file = .created := by
  rcases h with rfl | rfl | rfl <;> rfl

/-- Witness for C4: the absent-file case falls back to creation. -/
theorem load_config_error_falls_back_to_create_witness :
    load_config .absent = .created :=
  load_config_error_falls_back_to_create .absent (Or.inl rfl)

/-- C5 counterexample: two profile files that differ only in the persisted
creation timestamp load to the same in-memory state, so the in-memory
result of loading is not equal to all three persisted fields — the loader
never reads `setup_date` back. -/
theorem load_config_ignores_timestamp :
    load_config (.jsonValue (.obj [("username", .str "alice"), ("token", .str "tok32"),
      ("setup_date", .str "2024-01-01T00:00:00")])) =
    load_config (.jsonValue (.obj [("username", .str "alice"), ("token", .str "tok32"),
      ("setup_date", .str "2025-12-31T23:59:59")])) := rfl

/-- C5 (amended): for every profile file that parses to a JSON object with
string values under the account-identifier and obfuscated-secret keys,
loading sets the in-memory username and token to exactly the persisted
values and the interactive creation path is not invoked; the persisted
creation timestamp is written at creation but ignored by the loader. -/
theorem load_config_valid_fields_loaded (fields : List (String × JVal)) (u t : String)
    (hu : fields.lookup "username" = some (.str u))
    (ht : fields.lookup "token" = some (.str t)) :
    load_config (.jsonValue (.obj fields)) = .loaded (.str u) (.str t) := by
  simp [load_config, load_config_try, dictGet, hu, ht]

/-- Witness for C5 (amended) on a concrete three-field profile file. -/
theorem load_config_valid_fields_loaded_witness :
    load_config (.jsonValue (.obj [("username", .str "alice"), ("token", .str "tok32"),
      ("setup_date", .str "2024-01-01T00:00:00")])) =
      .loaded (.str "alice") (.str "tok32") :=
  load_config_valid_fields_loaded _ "alice" "tok32" rfl rfl

/-- C6: `_create_config` stores the stripped account identifier, computes
the obfuscated secret as the base64 encoding of the SHA-256 hash of the
stripped raw secret concatenated with the fixed salt, truncated to 32
characters, writes {username, token, setup_date, termux_optimized} to the
profile file with the token equal to that obfuscated secret, and leaves
the same values in the in-memory profile it returns. -/
theorem create_config_writes_profile (u s now : String) :
    (create_config u s now).memUsername = pyStrip u ∧
    (create_config u s now).memToken =
      String.mk ((b64encodeBytes (sha256 (strBytes (pyStrip s ++ configSalt)))).take 32) ∧
    (create_config u s now).fileData =
      [("username", .str (pyStrip u)),
       ("token", .str ((create_config u s now).memToken)),
       ("setup_date", .str now),
       ("termux_optimized", .bool true)] :=
  ⟨rfl, rfl, rfl⟩

/-- C7: calling `_github_api` with a method outside {GET, POST, PUT,
DELETE} performs no HTTP dispatch (the result does not depend on what the
network would have answered) and raises `UnboundLocalError`, which the
`RequestException` handler does not catch, so the error escapes. -/
theorem github_api_invalid_method_unbound (method : String) (net net2 : HttpResult)
    (hm : ¬(method = "GET" ∨ method = "POST" ∨ method = "PUT" ∨ method = "DELETE")) :
    github_api method net = .error .unboundLocalError ∧
    github_api method net = github_api method net2 := by
  push_neg at hm
  obtain ⟨h1, h2, h3, h4⟩ := hm
  constructor
  · simp [github_api, github_api_try, dispatchMethod, h1, h2, h3, h4]
  · simp [github_api, github_api_try, dispatchMethod, h1, h2, h3, h4]

/-- Witness for C7: the unsupported verb `PATCH` escapes with
`UnboundLocalError` whatever the network state. -/
theorem github_api_invalid_method_unbound_witness :
    github_api "PATCH" .transportError = .error .unboundLocalError ∧
    github_api "PATCH" .transportError = github_api "PATCH" (.response 200 .empty) :=
  github_api_invalid_method_unbound "PATCH" .transportError (.response 200 .empty) (by decide)

/-- C8: `_github_api` never assigns to `self.config`; for every starting
configuration, endpoint, method, and network outcome, the configuration
component of the state after the call is the configuration before it. -/
theorem github_api_preserves_config (cfg : GitHubConfig) (endpoint method : String)
    (net : HttpResult) :
    (github_api_full cfg endpoint method net).1 = cfg := rfl

/-- C9: the directory side effect of `_setup_environment` leaves the
configuration directory existing, and running it a second time from the
resulting state changes nothing (and, the model being a total function,
raises nothing). -/
theorem setup_environment_dir_idempotent (dirExists : Bool) :
    setup_environment_dir dirExists = true ∧
    setup_environment_dir (setup_environment_dir dirExists) = setup_environment_dir dirExists := by
  cases dirExists <;> exact ⟨rfl, rfl⟩

/-- C10: a profile file that parses to a JSON object lacking the
account-identifier or obfuscated-secret key still loads (the creation
path is not invoked), with each missing field defaulted to the empty
string by `dict.get(key, "")`. -/
theorem load_config_missing_key_defaults (fields : List (String × JVal))
    (_h : fields.lookup "username" = none ∨ fields.lookup "token" = none) :
    ∃ u t, load_config (.jsonValue (.obj fields)) = .loaded u t ∧
      (fields.lookup "username" = none → u = .str "") ∧
      (fields.lookup "token" = none → t = .str "") := by
  refine ⟨dictGet fields "username" (.str ""), dictGet fields "token" (.str ""), ?_, ?_, ?_⟩
  · rfl
  · intro hn
    simp [dictGet, hn]
  · intro hn
    simp [dictGet, hn]

/-- Witness for C10: the empty JSON object loads with both fields empty. -/
theorem load_config_missing_key_defaults_witness :
    ∃ u t, load_config (.jsonValue (.obj [])) = .loaded u t ∧
      (([] : List (String × JVal)).lookup "username" = none → u = .str "") ∧
      (([] : List (String × JVal)).lookup "token" = none → t = .str "") :=
  load_config_missing_key_defaults [] (Or.inl rfl)

end Flower
